import Mathlib

/-!
Verification of the linka-firmware PMS5003/PMS7003 frame decoder and
duty-cycle controller (shallow embedding of `src/PMS.cpp` and
`src/linka-firmware.ino`).

Machine integers are modelled as `Nat` with explicit `% 2^w` where the C++
performs fixed-width arithmetic (`uint8_t` stream bytes, `uint16_t` checksum
accumulator / frame length / transmitted checksum, `uint32_t` millis
arithmetic).
-/

namespace Linka

/-- Values `PMS::STATUS_WAITING` / `PMS::STATUS_OK` from the driver. -/
inductive PmsStatus where
  | waiting
  | ok
  deriving DecidableEq, Repr

/-- Struct `PMS::DATA` — the twelve decoded 16-bit fields (field names as in the
source). -/
structure DATA where
  PM_SP_UG_1_0 : Nat
  PM_SP_UG_2_5 : Nat
  PM_SP_UG_10_0 : Nat
  PM_AE_UG_1_0 : Nat
  PM_AE_UG_2_5 : Nat
  PM_AE_UG_10_0 : Nat
  PM_TOTALPARTICLES_0_3 : Nat
  PM_TOTALPARTICLES_0_5 : Nat
  PM_TOTALPARTICLES_1_0 : Nat
  PM_TOTALPARTICLES_2_5 : Nat
  PM_TOTALPARTICLES_5_0 : Nat
  PM_TOTALPARTICLES_10_0 : Nat
  deriving DecidableEq, Repr

/-- Modelled from the spec: `PMS.h` is not under `src/`; the spec describes
`payload` as a fixed-capacity buffer sized to the maximum supported frame
type, with bytes beyond the 13-field variant's decoded payload only
checksummed, never stored.  The decoder reads payload offsets 0..23, so the
capacity is 24 bytes. -/
def PAYLOAD_SIZE : Nat := 24

/-- Decoder state: the private members of class `PMS` that `PMS::loop`
reads and writes (`_index`, `_calculatedChecksum`, `_frameLen`, `_checksum`,
`_payload`, the caller's `DATA` struct, `_status`). -/
structure DecoderState where
  index : Nat
  calculatedChecksum : Nat
  frameLen : Nat
  checksum : Nat
  payload : List Nat
  data : DATA
  status : PmsStatus
  deriving DecidableEq, Repr

/-- Arduino `makeWord(h, l)`: big-endian 16-bit word from two bytes. -/
def makeWord (h l : Nat) : Nat := h * 256 + l

/-- The twelve `makeWord` reads of `_payload[0..23]` performed by
`PMS::loop` when the checksum matches. -/
def decodePayload (p : List Nat) : DATA where
  PM_SP_UG_1_0 := makeWord (p.getD 0 0) (p.getD 1 0)
  PM_SP_UG_2_5 := makeWord (p.getD 2 0) (p.getD 3 0)
  PM_SP_UG_10_0 := makeWord (p.getD 4 0) (p.getD 5 0)
  PM_AE_UG_1_0 := makeWord (p.getD 6 0) (p.getD 7 0)
  PM_AE_UG_2_5 := makeWord (p.getD 8 0) (p.getD 9 0)
  PM_AE_UG_10_0 := makeWord (p.getD 10 0) (p.getD 11 0)
  PM_TOTALPARTICLES_0_3 := makeWord (p.getD 12 0) (p.getD 13 0)
  PM_TOTALPARTICLES_0_5 := makeWord (p.getD 14 0) (p.getD 15 0)
  PM_TOTALPARTICLES_1_0 := makeWord (p.getD 16 0) (p.getD 17 0)
  PM_TOTALPARTICLES_2_5 := makeWord (p.getD 18 0) (p.getD 19 0)
  PM_TOTALPARTICLES_5_0 := makeWord (p.getD 20 0) (p.getD 21 0)
  PM_TOTALPARTICLES_10_0 := makeWord (p.getD 22 0) (p.getD 23 0)

/-- One invocation of `PMS::loop` when a byte `chIn` is available.
`_status = STATUS_WAITING` is executed first on every invocation.
The byte is truncated to `uint8_t` on read.  The `switch (_index)` follows
the source case by case; `% 65536` marks every `uint16_t` store. -/
def loopStep (s : DecoderState) (chIn : Nat) : DecoderState :=
  let s := { s with status := PmsStatus.waiting }
  let ch := chIn % 256
  if s.index = 0 then
    if ch ≠ 0x42 then s
    else { s with calculatedChecksum := ch, index := s.index + 1 }
  else if s.index = 1 then
    if ch ≠ 0x4D then { s with index := 0 }
    else { s with calculatedChecksum := (s.calculatedChecksum + ch) % 65536,
                  index := s.index + 1 }
  else if s.index = 2 then
    { s with calculatedChecksum := (s.calculatedChecksum + ch) % 65536,
             frameLen := (ch <<< 8) % 65536,
             index := s.index + 1 }
  else if s.index = 3 then
    let fl := (s.frameLen ||| ch) % 65536
    if fl ≠ 2 * 9 + 2 ∧ fl ≠ 2 * 13 + 2 then
      { s with frameLen := fl, index := 0 }
    else
      { s with frameLen := fl,
               calculatedChecksum := (s.calculatedChecksum + ch) % 65536,
               index := s.index + 1 }
  else
    if s.index = s.frameLen + 2 then
      { s with checksum := (ch <<< 8) % 65536, index := s.index + 1 }
    else if s.index = s.frameLen + 2 + 1 then
      let cs := (s.checksum ||| ch) % 65536
      if s.calculatedChecksum = cs then
        { s with checksum := cs, status := PmsStatus.ok,
                 data := decodePayload s.payload, index := 0 }
      else
        { s with checksum := cs, index := 0 }
    else
      let cc := (s.calculatedChecksum + ch) % 65536
      let payloadIndex := s.index - 4
      if payloadIndex < PAYLOAD_SIZE then
        { s with calculatedChecksum := cc,
                 payload := s.payload.set payloadIndex ch,
                 index := s.index + 1 }
      else
        { s with calculatedChecksum := cc, index := s.index + 1 }

/-- One invocation of `PMS::loop` with an optional available byte: when the
stream has no byte, the call only resets `_status` to `STATUS_WAITING`. -/
def loopOpt (s : DecoderState) (inb : Option Nat) : DecoderState :=
  match inb with
  | none => { s with status := PmsStatus.waiting }
  | some ch => loopStep s ch

/-- Function `PMS::read`: one `loop()` invocation, returns `_status == STATUS_OK`
together with the post state. -/
def pmsRead (s : DecoderState) (inb : Option Nat) : Bool × DecoderState :=
  let s2 := loopOpt s inb
  (s2.status = PmsStatus.ok, s2)

/-- Function `PMS::readUntil`: repeated `loop()` invocations until `STATUS_OK` or
timeout.  The list holds the byte (or absence of a byte) each iteration
sees; the do-while runs at least one iteration, so the empty list still
performs one `loop()` with no byte available. -/
def readUntilRun (s : DecoderState) : List (Option Nat) → Bool × DecoderState
  | [] =>
    let s2 := loopOpt s none
    (s2.status = PmsStatus.ok, s2)
  | i :: rest =>
    let s2 := loopOpt s i
    if s2.status = PmsStatus.ok then (true, s2) else readUntilRun s2 rest

/-- Feeding a whole byte list, one `loop()` invocation per byte. -/
def feedAll (s : DecoderState) (l : List Nat) : DecoderState :=
  l.foldl loopStep s

/-- The `_status` value observed after each byte of the list. -/
def statusTrace (s : DecoderState) : List Nat → List PmsStatus
  | [] => []
  | ch :: rest =>
    let s2 := loopStep s ch
    s2.status :: statusTrace s2 rest

/-- How many of the per-byte invocations report `STATUS_OK`. -/
def okCount (s : DecoderState) (l : List Nat) : Nat :=
  (statusTrace s l).count PmsStatus.ok

/-- Modelled from the spec: `PMS.h` (not under `src/`) declares the members;
the `PMS` object is a namespace-scope global, so all members start
zero-initialized, `_status` at `STATUS_WAITING`. -/
def initState : DecoderState where
  index := 0
  calculatedChecksum := 0
  frameLen := 0
  checksum := 0
  payload := List.replicate PAYLOAD_SIZE 0
  data :=
    { PM_SP_UG_1_0 := 0, PM_SP_UG_2_5 := 0, PM_SP_UG_10_0 := 0
      PM_AE_UG_1_0 := 0, PM_AE_UG_2_5 := 0, PM_AE_UG_10_0 := 0
      PM_TOTALPARTICLES_0_3 := 0, PM_TOTALPARTICLES_0_5 := 0
      PM_TOTALPARTICLES_1_0 := 0, PM_TOTALPARTICLES_2_5 := 0
      PM_TOTALPARTICLES_5_0 := 0, PM_TOTALPARTICLES_10_0 := 0 }
  status := PmsStatus.waiting

/-- Function `PMS::create_fake_data`: bytes 0..29 of the 32-byte fake frame, exactly
as the `switch (index)` writes them (preamble, length 28, the three random
PM values at indices 10..15 split big-endian, zeros elsewhere). -/
def fakeFrameBytes (p1 p25 p10 : Nat) : List Nat :=
  [0x42, 0x4D, 0x00, 28,
   0, 0, 0, 0, 0, 0,
   (p1 >>> 8) &&& 0xFF, p1 &&& 0xFF,
   (p25 >>> 8) &&& 0xFF, p25 &&& 0xFF,
   (p10 >>> 8) &&& 0xFF, p10 &&& 0xFF,
   0, 0, 0, 0, 0, 0, 0, 0, 0, 0, 0, 0, 0, 0]

/-- Function `PMS::create_fake_data`: the full 32-byte buffer.  The trailing two
bytes are the running `uint16_t` sum of bytes 0..29 (cases 30 and 31 do not
accumulate), stored big-endian. -/
def create_fake_data (p1 p25 p10 : Nat) : List Nat :=
  let c := (fakeFrameBytes p1 p25 p10).foldl (fun a b => (a + b) % 65536) 0
  fakeFrameBytes p1 p25 p10 ++ [(c >>> 8) &&& 0xFF, c &&& 0xFF]

/-- The four 7-byte command frames written by `PMS::sleep`,
`PMS::wakeUp`, `PMS::activeMode`, `PMS::passiveMode`. -/
def sleepCommand : List Nat := [0x42, 0x4D, 0xE4, 0x00, 0x00, 0x01, 0x73]

/-- Command frame of `PMS::wakeUp`. -/
def wakeUpCommand : List Nat := [0x42, 0x4D, 0xE4, 0x00, 0x01, 0x01, 0x74]

/-- Command frame of `PMS::activeMode`. -/
def activeModeCommand : List Nat := [0x42, 0x4D, 0xE1, 0x00, 0x01, 0x01, 0x71]

/-- Command frame of `PMS::passiveMode`. -/
def passiveModeCommand : List Nat := [0x42, 0x4D, 0xE1, 0x00, 0x00, 0x01, 0x70]


/-- Writing a run of data bytes into the payload buffer starting at offset
`i`, dropping writes at or beyond the buffer capacity (mirrors the
`payloadIndex < sizeof(_payload)` guard). -/
def writeBytes (p : List Nat) (i : Nat) : List Nat → List Nat
  | [] => p
  | b :: rest => writeBytes (if i < PAYLOAD_SIZE then p.set i b else p) (i + 1) rest

/-- The 26 data bytes (frame positions 4..29) of the fake frame. -/
def fakeBody (p1 p25 p10 : Nat) : List Nat :=
  [0, 0, 0, 0, 0, 0,
   (p1 >>> 8) &&& 0xFF, p1 &&& 0xFF,
   (p25 >>> 8) &&& 0xFF, p25 &&& 0xFF,
   (p10 >>> 8) &&& 0xFF, p10 &&& 0xFF,
   0, 0, 0, 0, 0, 0, 0, 0, 0, 0, 0, 0, 0, 0]

/-- The running 16-bit checksum accumulated by `create_fake_data`. -/
def fakeChecksum (p1 p25 p10 : Nat) : Nat :=
  (fakeFrameBytes p1 p25 p10).foldl (fun a b => (a + b) % 65536) 0


/-- The three `PMS_STATE_*` values of the firmware. -/
inductive PmsState where
  | asleep
  | wakingUp
  | ready
  deriving DecidableEq, Repr

/-- The global snapshot variables of the firmware (`g_pm*_value`,
`g_pms_ae_readings_taken`, `g_pms_ppd_readings_taken`). -/
structure Snapshot where
  pm1p0_sp : Nat
  pm2p5_sp : Nat
  pm10p0_sp : Nat
  pm1p0_ae : Nat
  pm2p5_ae : Nat
  pm10p0_ae : Nat
  pm0p3_ppd : Nat
  pm0p5_ppd : Nat
  pm1p0_ppd : Nat
  pm2p5_ppd : Nat
  pm5p0_ppd : Nat
  pm10p0_ppd : Nat
  aeReadingsTaken : Bool
  ppdReadingsTaken : Bool
  deriving DecidableEq, Repr

/-- Configuration from `config.h`: `g_pms_report_period` and
`g_pms_warmup_period`, in seconds. -/
structure PmsConfig where
  reportPeriod : Nat
  warmupPeriod : Nat
  deriving DecidableEq, Repr

/-- The controller state: `g_pms_state`, `g_pms_state_start`, and the
snapshot globals. -/
structure CtrlState where
  pmsState : PmsState
  stateStart : Nat
  snapshot : Snapshot
  deriving DecidableEq, Repr

/-- Externally observable actions of one `updatePmsReadings` call: the
sensor commands written to the stream and the HTTP publish
(`reportToHttp`) with the snapshot it reads and the wall-clock time. -/
inductive Cmd where
  | wake
  | sleepSensor
  | publish (snap : Snapshot) (wallClock : Nat)
  deriving DecidableEq, Repr

/-- Unsigned `uint32_t` subtraction `a - b` (wraparound modulo `2^32`). -/
def usub32 (a b : Nat) : Nat :=
  (a % 4294967296 + (4294967296 - b % 4294967296)) % 4294967296

/-- The snapshot update performed inside the `pms.readUntil` success branch
of `updatePmsReadings`: SP and AE values copied unconditionally and
`g_pms_ae_readings_taken` set; the six PPD values and
`g_pms_ppd_readings_taken` only when the six decoded count fields do not
sum to zero. -/
def updateSnapshot (g : Snapshot) (d : DATA) : Snapshot :=
  let g := { g with
    pm1p0_sp := d.PM_SP_UG_1_0, pm2p5_sp := d.PM_SP_UG_2_5,
    pm10p0_sp := d.PM_SP_UG_10_0,
    pm1p0_ae := d.PM_AE_UG_1_0, pm2p5_ae := d.PM_AE_UG_2_5,
    pm10p0_ae := d.PM_AE_UG_10_0,
    aeReadingsTaken := true }
  if d.PM_TOTALPARTICLES_0_3 + d.PM_TOTALPARTICLES_0_5 + d.PM_TOTALPARTICLES_1_0
      + d.PM_TOTALPARTICLES_2_5 + d.PM_TOTALPARTICLES_5_0 + d.PM_TOTALPARTICLES_10_0
      ≠ 0 then
    { g with
      pm0p3_ppd := d.PM_TOTALPARTICLES_0_3, pm0p5_ppd := d.PM_TOTALPARTICLES_0_5,
      pm1p0_ppd := d.PM_TOTALPARTICLES_1_0, pm2p5_ppd := d.PM_TOTALPARTICLES_2_5,
      pm5p0_ppd := d.PM_TOTALPARTICLES_5_0, pm10p0_ppd := d.PM_TOTALPARTICLES_10_0,
      ppdReadingsTaken := true }
  else
    g

/-- One call of `updatePmsReadings` (`src/linka-firmware.ino`): the three
sequential state checks.  `timeNow` is `millis()`; `decodeRes` is the
outcome of the bounded blocking `pms.readUntil(g_data)` (`some` decoded
data on success, `none` on timeout), consulted only in the Ready branch;
`wallClock` is the `time(&now)` timestamp used by `reportToHttp`. -/
def tick (cfg : PmsConfig) (s : CtrlState) (timeNow : Nat)
    (decodeRes : Option DATA) (wallClock : Nat) : CtrlState × List Cmd :=
  let cmds : List Cmd := []
  let (s, cmds) :=
    if s.pmsState = PmsState.asleep then
      if usub32 timeNow s.stateStart ≥
          usub32 (cfg.reportPeriod * 1000 % 4294967296)
            (cfg.warmupPeriod * 1000 % 4294967296) then
        ({ s with pmsState := PmsState.wakingUp, stateStart := timeNow },
         cmds ++ [Cmd.wake])
      else (s, cmds)
    else (s, cmds)
  let s :=
    if s.pmsState = PmsState.wakingUp then
      if usub32 timeNow s.stateStart ≥ cfg.warmupPeriod * 1000 % 4294967296 then
        { s with pmsState := PmsState.ready, stateStart := timeNow }
      else s
    else s
  if s.pmsState = PmsState.ready then
    match decodeRes with
    | some d =>
      let snap2 := updateSnapshot s.snapshot d
      ({ pmsState := PmsState.asleep, stateStart := timeNow, snapshot := snap2 },
       cmds ++ [Cmd.sleepSensor, Cmd.publish snap2 wallClock])
    | none => (s, cmds)
  else (s, cmds)

/-- Initial controller state: `g_pms_state = PMS_STATE_WAKING_UP`,
`g_pms_state_start = 0`, all snapshot globals zero / false. -/
def initCtrl : CtrlState where
  pmsState := PmsState.wakingUp
  stateStart := 0
  snapshot :=
    { pm1p0_sp := 0, pm2p5_sp := 0, pm10p0_sp := 0
      pm1p0_ae := 0, pm2p5_ae := 0, pm10p0_ae := 0
      pm0p3_ppd := 0, pm0p5_ppd := 0, pm1p0_ppd := 0
      pm2p5_ppd := 0, pm5p0_ppd := 0, pm10p0_ppd := 0
      aeReadingsTaken := false, ppdReadingsTaken := false }

/-- Iterated ticks with no decode result, collecting each tick time's
emitted commands. -/
def runTicks (cfg : PmsConfig) (s : CtrlState) : List Nat → CtrlState × List (Nat × Cmd)
  | [] => (s, [])
  | t :: rest =>
    let r1 := tick cfg s t none 0
    let r2 := runTicks cfg r1.1 rest
    (r2.1, r1.2.map (fun c => (t, c)) ++ r2.2)


/-- The concrete configuration of `config.h`: 120 s report period,
30 s warmup period. -/
def cfg120 : PmsConfig where
  reportPeriod := 120
  warmupPeriod := 30


theorem feedAll_append (s : DecoderState) (l1 l2 : List Nat) :
    feedAll s (l1 ++ l2) = feedAll (feedAll s l1) l2 := by
  simp [feedAll, List.foldl_append]

theorem statusTrace_append (s : DecoderState) (l1 l2 : List Nat) :
    statusTrace s (l1 ++ l2) = statusTrace s l1 ++ statusTrace (feedAll s l1) l2 := by
  induction l1 generalizing s with
  | nil => simp [statusTrace, feedAll]
  | cons a l ih => simp [statusTrace, feedAll, ih]

theorem length_statusTrace (s : DecoderState) (l : List Nat) :
    (statusTrace s l).length = l.length := by
  induction l generalizing s with
  | nil => rfl
  | cons a l ih => simp [statusTrace, ih]

theorem foldl_addmod (c : Nat) (l : List Nat) (hc : c < 65536) :
    List.foldl (fun a b => (a + b) % 65536) c l = (c + l.sum) % 65536 := by
  induction l generalizing c with
  | nil => simp [Nat.mod_eq_of_lt hc]
  | cons a l ih =>
    rw [List.foldl_cons, ih ((c + a) % 65536) (Nat.mod_lt _ (by omega)),
      Nat.mod_add_mod, List.sum_cons, Nat.add_assoc]

theorem run_header (s : DecoderState) (fl : Nat)
    (hidx : s.index = 0) (hfl : fl = 20 ∨ fl = 28) :
    feedAll s [0x42, 0x4D, 0, fl] =
      { s with index := 4, calculatedChecksum := 0x8F + fl, frameLen := fl,
               status := PmsStatus.waiting }
    ∧ statusTrace s [0x42, 0x4D, 0, fl] = List.replicate 4 PmsStatus.waiting := by
  obtain ⟨i, cc, flv, cs, p, d, st⟩ := s
  simp only at hidx
  subst hidx
  rcases hfl with h | h <;> subst h <;>
    exact ⟨by simp [feedAll, loopStep], by simp [statusTrace, loopStep]⟩

theorem run_payload (body : List Nat) : ∀ (s : DecoderState) (k : Nat),
    s.index = k + 4 → s.status = PmsStatus.waiting →
    s.calculatedChecksum < 65536 →
    k + body.length + 2 ≤ s.frameLen →
    (∀ b ∈ body, b < 256) →
    feedAll s body =
      { s with index := k + 4 + body.length,
               calculatedChecksum := (s.calculatedChecksum + body.sum) % 65536,
               payload := writeBytes s.payload k body }
    ∧ statusTrace s body = List.replicate body.length PmsStatus.waiting := by
  induction body with
  | nil =>
    intro s k h1 h2 hcc h3 h4
    obtain ⟨i, cc, flv, cs, p, d, st⟩ := s
    simp only at h1 h2 hcc ⊢
    subst h1; subst h2
    simp [feedAll, statusTrace, writeBytes, Nat.mod_eq_of_lt hcc]
  | cons b rest ih =>
    intro s k h1 h2 hcc h3 h4
    obtain ⟨i, cc, flv, cs, p, d, st⟩ := s
    simp only [List.length_cons] at h3
    simp only at h1 h2 hcc h3 ⊢
    subst h1; subst h2
    have hb : b < 256 := h4 b (by simp)
    have hne0 : ¬(k + 4 = 0) := by omega
    have hne1 : ¬(k + 4 = 1) := by omega
    have hne2 : ¬(k + 4 = 2) := by omega
    have hne3 : ¬(k + 4 = 3) := by omega
    have hneA : ¬(k + 4 = flv + 2) := by omega
    have hneB : ¬(k + 4 = flv + 2 + 1) := by omega
    have hstep : loopStep ⟨k + 4, cc, flv, cs, p, d, PmsStatus.waiting⟩ b =
        ⟨k + 4 + 1, (cc + b) % 65536, flv, cs,
         if k < PAYLOAD_SIZE then p.set k b else p, d, PmsStatus.waiting⟩ := by
      simp only [loopStep, Nat.mod_eq_of_lt hb, hne0, hne1, hne2, hne3, hneA, hneB,
        if_false, Nat.add_sub_cancel]
      split <;> rfl
    have hrest := ih ⟨k + 4 + 1, (cc + b) % 65536, flv, cs,
         if k < PAYLOAD_SIZE then p.set k b else p, d, PmsStatus.waiting⟩ (k + 1)
      rfl rfl (Nat.mod_lt _ (by omega)) (by dsimp only; omega)
      (fun x hx => h4 x (by simp [hx]))
    simp only at hrest
    constructor
    · show feedAll _ (b :: rest) = _
      rw [show feedAll ⟨k + 4, cc, flv, cs, p, d, PmsStatus.waiting⟩ (b :: rest)
            = feedAll (loopStep ⟨k + 4, cc, flv, cs, p, d, PmsStatus.waiting⟩ b) rest
          from rfl, hstep, hrest.1]
      simp only [writeBytes, DecoderState.mk.injEq, Nat.mod_add_mod, List.sum_cons,
        List.length_cons, true_and, and_true]
      try omega
    · show statusTrace _ (b :: rest) = _
      rw [show statusTrace ⟨k + 4, cc, flv, cs, p, d, PmsStatus.waiting⟩ (b :: rest)
            = (loopStep ⟨k + 4, cc, flv, cs, p, d, PmsStatus.waiting⟩ b).status
              :: statusTrace (loopStep ⟨k + 4, cc, flv, cs, p, d, PmsStatus.waiting⟩ b) rest
          from rfl, hstep, hrest.2]
      simp [List.replicate_succ]

theorem mul256_lor (a b : Nat) (hb : b < 256) : (a * 256) ||| b = a * 256 + b := by
  have h : a * 256 = 2 ^ 8 * a := by ring
  apply Nat.eq_of_testBit_eq
  intro i
  rw [Nat.testBit_lor, h, Nat.testBit_mul_pow_two_add a (by simpa using hb) i,
    Nat.testBit_mul_pow_two]
  by_cases hi : i < 8
  · simp [hi, Nat.not_le.mpr hi]
  · have h2i : (256 : Nat) ≤ 2 ^ i := by
      calc (256 : Nat) = 2 ^ 8 := by norm_num
        _ ≤ 2 ^ i := Nat.pow_le_pow_right (by norm_num) (Nat.not_lt.mp hi)
    have hbf : b.testBit i = false := Nat.testBit_lt_two_pow (lt_of_lt_of_le hb h2i)
    simp [hi, Nat.not_lt.mp hi, hbf]


theorem frame_run (s : DecoderState) (fl : Nat) (body : List Nat) (ch cl : Nat)
    (hidx : s.index = 0) (hst : s.status = PmsStatus.waiting)
    (hfl : fl = 20 ∨ fl = 28) (hlen : body.length + 2 = fl)
    (hb : ∀ b ∈ body, b < 256) (hch : ch < 256) (hcl : cl < 256) :
    feedAll s ([0x42, 0x4D, 0, fl] ++ body ++ [ch, cl]) =
      { s with index := 0,
               calculatedChecksum := (0x8F + fl + body.sum) % 65536,
               frameLen := fl,
               checksum := ch * 256 + cl,
               payload := writeBytes s.payload 0 body,
               data := if (0x8F + fl + body.sum) % 65536 = ch * 256 + cl
                       then decodePayload (writeBytes s.payload 0 body) else s.data,
               status := if (0x8F + fl + body.sum) % 65536 = ch * 256 + cl
                         then PmsStatus.ok else PmsStatus.waiting }
    ∧ statusTrace s ([0x42, 0x4D, 0, fl] ++ body ++ [ch, cl]) =
        List.replicate (fl + 3) PmsStatus.waiting ++
        [if (0x8F + fl + body.sum) % 65536 = ch * 256 + cl
         then PmsStatus.ok else PmsStatus.waiting] := by
  obtain ⟨i, cc0, flv0, cs0, p, d0, st⟩ := s
  simp only at hidx hst ⊢
  subst hidx; subst hst
  have hflge : 20 ≤ fl ∧ fl ≤ 28 := by rcases hfl with h | h <;> omega
  have hh := run_header ⟨0, cc0, flv0, cs0, p, d0, PmsStatus.waiting⟩ fl rfl hfl
  rw [show ({ (⟨0, cc0, flv0, cs0, p, d0, PmsStatus.waiting⟩ : DecoderState) with
        index := 4, calculatedChecksum := 0x8F + fl, frameLen := fl,
        status := PmsStatus.waiting } : DecoderState)
      = ⟨4, 0x8F + fl, fl, cs0, p, d0, PmsStatus.waiting⟩ from rfl] at hh
  have hp := run_payload body ⟨4, 0x8F + fl, fl, cs0, p, d0, PmsStatus.waiting⟩ 0
    rfl rfl (by dsimp only; omega) (by dsimp only; omega) hb
  rw [show ({ (⟨4, 0x8F + fl, fl, cs0, p, d0, PmsStatus.waiting⟩ : DecoderState) with
        index := 0 + 4 + body.length,
        calculatedChecksum := (0x8F + fl + body.sum) % 65536,
        payload := writeBytes p 0 body } : DecoderState)
      = ⟨0 + 4 + body.length, (0x8F + fl + body.sum) % 65536, fl, cs0,
         writeBytes p 0 body, d0, PmsStatus.waiting⟩ from rfl] at hp
  set T : Nat := (0x8F + fl + body.sum) % 65536 with hT
  set P : List Nat := writeBytes p 0 body with hP
  have hTlt : T < 65536 := by rw [hT]; exact Nat.mod_lt _ (by omega)
  have he2 : 0 + 4 + body.length = fl + 2 := by omega
  have hch8 : (ch <<< 8) % 65536 = ch * 256 := by
    rw [Nat.shiftLeft_eq]
    have : ch * 2 ^ 8 = ch * 256 := by norm_num
    rw [this, Nat.mod_eq_of_lt (by omega)]
  have hcs : (ch * 256 ||| cl) % 65536 = ch * 256 + cl := by
    rw [mul256_lor ch cl hcl, Nat.mod_eq_of_lt (by omega)]
  have hne0 : ¬(fl + 2 = 0) := by omega
  have hne1 : ¬(fl + 2 = 1) := by omega
  have hne2 : ¬(fl + 2 = 2) := by omega
  have hne3 : ¬(fl + 2 = 3) := by omega
  have hchm : ch % 256 = ch := Nat.mod_eq_of_lt hch
  have hstep1 : loopStep ⟨fl + 2, T, fl, cs0, P, d0, PmsStatus.waiting⟩ ch =
      ⟨fl + 3, T, fl, ch * 256, P, d0, PmsStatus.waiting⟩ := by
    simp only [loopStep, hne0, hne1, hne2, hne3, if_false, if_true, hchm, hch8]
  have hne0' : ¬(fl + 3 = 0) := by omega
  have hne1' : ¬(fl + 3 = 1) := by omega
  have hne2' : ¬(fl + 3 = 2) := by omega
  have hne3' : ¬(fl + 3 = 3) := by omega
  have hneq : ¬(fl + 3 = fl + 2) := by omega
  have hstep2 : loopStep ⟨fl + 3, T, fl, ch * 256, P, d0, PmsStatus.waiting⟩ cl =
      if T = ch * 256 + cl
      then ⟨0, T, fl, ch * 256 + cl, P, decodePayload P, PmsStatus.ok⟩
      else ⟨0, T, fl, ch * 256 + cl, P, d0, PmsStatus.waiting⟩ := by
    have hclm : cl % 256 = cl := Nat.mod_eq_of_lt hcl
    have hyes : fl + 3 = fl + 2 + 1 := rfl
    simp only [loopStep, hne0', hne1', hne2', hne3', hneq, if_false, hclm, hcs, hyes,
      eq_self_iff_true, if_true]
  constructor
  · rw [feedAll_append, feedAll_append, hh.1, hp.1]
    rw [show feedAll ⟨0 + 4 + body.length, T, fl, cs0, P, d0, PmsStatus.waiting⟩ [ch, cl]
        = loopStep (loopStep ⟨0 + 4 + body.length, T, fl, cs0, P, d0, PmsStatus.waiting⟩ ch) cl
        from rfl, he2, hstep1, hstep2]
    split <;> rfl
  · rw [statusTrace_append, statusTrace_append, feedAll_append, hh.1, hh.2, hp.1, hp.2]
    rw [show statusTrace ⟨0 + 4 + body.length, T, fl, cs0, P, d0, PmsStatus.waiting⟩ [ch, cl]
        = (loopStep ⟨0 + 4 + body.length, T, fl, cs0, P, d0, PmsStatus.waiting⟩ ch).status
          :: (loopStep (loopStep ⟨0 + 4 + body.length, T, fl, cs0, P, d0, PmsStatus.waiting⟩ ch) cl).status
          :: [] from rfl, he2, hstep1, hstep2]
    have hjoin : List.replicate 4 PmsStatus.waiting ++
        (List.replicate body.length PmsStatus.waiting ++
          [PmsStatus.waiting,
           if T = ch * 256 + cl then PmsStatus.ok else PmsStatus.waiting]) =
        List.replicate (fl + 3) PmsStatus.waiting ++
        [if T = ch * 256 + cl then PmsStatus.ok else PmsStatus.waiting] := by
      have h1 : List.replicate (fl + 3) PmsStatus.waiting =
          List.replicate 4 PmsStatus.waiting ++
          (List.replicate body.length PmsStatus.waiting ++
            List.replicate 1 PmsStatus.waiting) := by
        rw [← List.replicate_add, ← List.replicate_add]
        congr 1
        omega
      rw [h1]
      simp
    simp only [apply_ite DecoderState.status]
    rw [List.append_assoc]
    exact hjoin


theorem run_garbage (g : List Nat) : ∀ s : DecoderState,
    s.index = 0 → s.status = PmsStatus.waiting →
    (∀ b ∈ g, b < 256 ∧ b ≠ 0x42) →
    feedAll s g = s ∧ statusTrace s g = List.replicate g.length PmsStatus.waiting := by
  induction g with
  | nil => intro s h1 h2 _; exact ⟨rfl, rfl⟩
  | cons b rest ih =>
    intro s h1 h2 hg
    obtain ⟨i, cc, flv, cs, p, d, st⟩ := s
    simp only at h1 h2
    subst h1; subst h2
    obtain ⟨hb, hb42⟩ := hg b (by simp)
    have hstep : loopStep ⟨0, cc, flv, cs, p, d, PmsStatus.waiting⟩ b =
        ⟨0, cc, flv, cs, p, d, PmsStatus.waiting⟩ := by
      simp only [loopStep, Nat.mod_eq_of_lt hb]
      simp [hb42]
    have hrest := ih ⟨0, cc, flv, cs, p, d, PmsStatus.waiting⟩ rfl rfl
      (fun x hx => hg x (by simp [hx]))
    constructor
    · show feedAll _ (b :: rest) = _
      rw [show feedAll (⟨0, cc, flv, cs, p, d, PmsStatus.waiting⟩ : DecoderState) (b :: rest) =
            feedAll (loopStep ⟨0, cc, flv, cs, p, d, PmsStatus.waiting⟩ b) rest from rfl,
        hstep, hrest.1]
    · show statusTrace _ (b :: rest) = _
      rw [show statusTrace (⟨0, cc, flv, cs, p, d, PmsStatus.waiting⟩ : DecoderState) (b :: rest) =
            (loopStep ⟨0, cc, flv, cs, p, d, PmsStatus.waiting⟩ b).status ::
              statusTrace (loopStep ⟨0, cc, flv, cs, p, d, PmsStatus.waiting⟩ b) rest from rfl,
        hstep, hrest.2]
      simp [List.replicate_succ]

theorem writeBytes_length : ∀ (l p : List Nat) (i : Nat),
    (writeBytes p i l).length = p.length := by
  intro l
  induction l with
  | nil => intro p i; rfl
  | cons b rest ih =>
    intro p i
    show (writeBytes (if i < PAYLOAD_SIZE then p.set i b else p) (i + 1) rest).length = _
    rw [ih]
    split <;> simp

theorem writeBytes_getD : ∀ (l p : List Nat) (i j : Nat),
    (writeBytes p i l).getD j 0 =
      if i ≤ j ∧ j < i + l.length ∧ j < PAYLOAD_SIZE ∧ j < p.length
      then l.getD (j - i) 0
      else p.getD j 0 := by
  intro l
  induction l with
  | nil =>
    intro p i j
    have hcon : ¬(i ≤ j ∧ j < i + ([] : List Nat).length ∧ j < PAYLOAD_SIZE ∧ j < p.length) := by
      simp only [List.length_nil]
      omega
    rw [if_neg hcon]
    rfl
  | cons b rest ih =>
    intro p i j
    show (writeBytes (if i < PAYLOAD_SIZE then p.set i b else p) (i + 1) rest).getD j 0 = _
    rw [ih]
    rcases Nat.lt_trichotomy j i with hji | hji | hji
    · have c1 : ¬(i + 1 ≤ j ∧ j < i + 1 + rest.length ∧ j < PAYLOAD_SIZE ∧
          j < (if i < PAYLOAD_SIZE then p.set i b else p).length) := by
        intro hcon; omega
      have c2 : ¬(i ≤ j ∧ j < i + (b :: rest).length ∧ j < PAYLOAD_SIZE ∧ j < p.length) := by
        intro hcon; omega
      rw [if_neg c1, if_neg c2]
      split
      · rw [List.getD_eq_getElem?_getD, List.getD_eq_getElem?_getD,
          List.getElem?_set_ne (by omega)]
      · rfl
    · subst hji
      have c1 : ¬(j + 1 ≤ j ∧ j < j + 1 + rest.length ∧ j < PAYLOAD_SIZE ∧
          j < (if j < PAYLOAD_SIZE then p.set j b else p).length) := by
        intro hcon; omega
      rw [if_neg c1]
      by_cases hcap : j < PAYLOAD_SIZE ∧ j < p.length
      · have c2 : j ≤ j ∧ j < j + (b :: rest).length ∧ j < PAYLOAD_SIZE ∧ j < p.length := by
          refine ⟨le_refl j, by simp, hcap.1, hcap.2⟩
        rw [if_pos c2, if_pos hcap.1]
        rw [List.getD_eq_getElem?_getD, List.getElem?_set_self hcap.2]
        simp
      · have c2 : ¬(j ≤ j ∧ j < j + (b :: rest).length ∧ j < PAYLOAD_SIZE ∧ j < p.length) := by
          intro hcon; exact hcap ⟨hcon.2.2.1, hcon.2.2.2⟩
        rw [if_neg c2]
        rcases Nat.lt_or_ge j PAYLOAD_SIZE with hlt | hge
        · have hjp : ¬(j < p.length) := fun hcon => hcap ⟨hlt, hcon⟩
          rw [if_pos hlt, List.getD_eq_getElem?_getD, List.getD_eq_getElem?_getD,
            List.getElem?_set]
          rw [if_pos rfl, if_neg (by omega)]
          simp [List.getElem?_eq_none (by omega : p.length ≤ j)]
        · rw [if_neg (by omega)]
    · have hcond : (i + 1 ≤ j ∧ j < i + 1 + rest.length ∧ j < PAYLOAD_SIZE ∧
          j < (if i < PAYLOAD_SIZE then p.set i b else p).length) ↔
          (i ≤ j ∧ j < i + (b :: rest).length ∧ j < PAYLOAD_SIZE ∧ j < p.length) := by
        constructor <;> intro hcon
        · refine ⟨by omega, by simp; omega, hcon.2.2.1, ?_⟩
          have := hcon.2.2.2
          split at this <;> simpa using this
        · refine ⟨by omega, by simp at hcon; omega, hcon.2.2.1, ?_⟩
          split <;> simpa using hcon.2.2.2
      by_cases hc : i ≤ j ∧ j < i + (b :: rest).length ∧ j < PAYLOAD_SIZE ∧ j < p.length
      · rw [if_pos (hcond.mpr hc), if_pos hc]
        have hsub : j - i = (j - (i + 1)) + 1 := by omega
        rw [hsub, List.getD_cons_succ]
      · rw [if_neg (fun hcon => hc (hcond.mp hcon)), if_neg hc]
        split
        · rw [List.getD_eq_getElem?_getD, List.getD_eq_getElem?_getD,
            List.getElem?_set_ne (by omega)]
        · rfl

theorem sum_set_add : ∀ (l : List Nat) (j x : Nat), j < l.length →
    (l.set j x).sum + l.getD j 0 = l.sum + x := by
  intro l
  induction l with
  | nil => intro j x h; simp at h
  | cons b rest ih =>
    intro j x h
    match j with
    | 0 => simp [List.set]; omega
    | n + 1 =>
      have := ih n x (by simpa using h)
      simp only [List.set, List.sum_cons, List.getD_cons_succ]
      omega


theorem and255_eq_mod (x : Nat) : x &&& 0xFF = x % 256 := by
  have h := Nat.and_pow_two_sub_one_eq_mod x 8
  norm_num at h
  exact h

theorem shr8_eq_div (x : Nat) : x >>> 8 = x / 256 := by
  have h := Nat.shiftRight_eq_div_pow x 8
  norm_num at h
  exact h

theorem makeWord_split (v : Nat) (hv : v < 65536) :
    makeWord ((v >>> 8) &&& 0xFF) (v &&& 0xFF) = v := by
  rw [makeWord, and255_eq_mod, and255_eq_mod, shr8_eq_div]
  omega


theorem create_fake_data_eq (p1 p25 p10 : Nat) :
    create_fake_data p1 p25 p10 =
      [0x42, 0x4D, 0, 28] ++ fakeBody p1 p25 p10 ++
        [(fakeChecksum p1 p25 p10 >>> 8) &&& 0xFF, fakeChecksum p1 p25 p10 &&& 0xFF] := rfl

theorem fakeChecksum_eq (p1 p25 p10 : Nat) :
    fakeChecksum p1 p25 p10 = (0x8F + 28 + (fakeBody p1 p25 p10).sum) % 65536 := by
  rw [fakeChecksum, foldl_addmod _ _ (by norm_num)]
  congr 1
  simp [fakeFrameBytes, fakeBody, List.sum_cons]
  omega

theorem and255_lt (x : Nat) : x &&& 0xFF < 256 :=
  lt_of_le_of_lt Nat.and_le_right (by norm_num)

theorem fakeBody_bytes (p1 p25 p10 : Nat) : ∀ b ∈ fakeBody p1 p25 p10, b < 256 := by
  intro b hb
  rw [fakeBody] at hb
  simp only [List.mem_cons, List.not_mem_nil, or_false] at hb
  rcases hb with rfl|rfl|rfl|rfl|rfl|rfl|rfl|rfl|rfl|rfl|rfl|rfl|rfl|rfl|rfl|rfl|rfl|rfl|rfl|rfl|rfl|rfl|rfl|rfl|rfl|rfl
  all_goals first | exact and255_lt _ | omega


set_option maxRecDepth 10000 in
/-- C1: for every synthetic frame built by `create_fake_data` (preamble
`0x42 0x4D`, declared length 28, three randomized PM values at byte offsets
10..15, zeros elsewhere, trailing 16-bit-sum checksum), feeding its 32
bytes one at a time into the decoder from position 0 yields `STATUS_OK`
exactly once, on the last byte, and the decoded standard-particle,
atmospheric-environment and particle-count fields equal the big-endian
words encoded in the frame (SP words and count words are zero, AE words
carry the three values). -/
theorem C1_fake_frame_roundtrip (p1 p25 p10 : Nat)
    (h1 : p1 < 500) (h2 : p25 < 500) (h3 : p10 < 500) :
    statusTrace initState (create_fake_data p1 p25 p10) =
      List.replicate 31 PmsStatus.waiting ++ [PmsStatus.ok]
    ∧ (feedAll initState (create_fake_data p1 p25 p10)).data =
        { PM_SP_UG_1_0 := 0, PM_SP_UG_2_5 := 0, PM_SP_UG_10_0 := 0,
          PM_AE_UG_1_0 := p1, PM_AE_UG_2_5 := p25, PM_AE_UG_10_0 := p10,
          PM_TOTALPARTICLES_0_3 := 0, PM_TOTALPARTICLES_0_5 := 0,
          PM_TOTALPARTICLES_1_0 := 0, PM_TOTALPARTICLES_2_5 := 0,
          PM_TOTALPARTICLES_5_0 := 0, PM_TOTALPARTICLES_10_0 := 0 } := by
  have hclt : fakeChecksum p1 p25 p10 < 65536 := by
    rw [fakeChecksum_eq]
    exact Nat.mod_lt _ (by norm_num)
  have hbl : (fakeBody p1 p25 p10).length = 26 := rfl
  have hfr := frame_run initState 28 (fakeBody p1 p25 p10)
    ((fakeChecksum p1 p25 p10 >>> 8) &&& 0xFF) (fakeChecksum p1 p25 p10 &&& 0xFF)
    rfl rfl (Or.inr rfl) (by rw [hbl]) (fakeBody_bytes p1 p25 p10)
    (and255_lt _) (and255_lt _)
  have hword : ((fakeChecksum p1 p25 p10 >>> 8) &&& 0xFF) * 256 +
      (fakeChecksum p1 p25 p10 &&& 0xFF) = fakeChecksum p1 p25 p10 := by
    have h := makeWord_split (fakeChecksum p1 p25 p10) hclt
    rw [makeWord] at h
    exact h
  have hcond : (0x8F + 28 + (fakeBody p1 p25 p10).sum) % 65536 =
      ((fakeChecksum p1 p25 p10 >>> 8) &&& 0xFF) * 256 +
        (fakeChecksum p1 p25 p10 &&& 0xFF) := by
    rw [hword, fakeChecksum_eq]
  rw [create_fake_data_eq]
  constructor
  · rw [hfr.2, if_pos hcond]
  · rw [hfr.1]
    simp only [if_pos hcond]
    have hget : ∀ j, j < 24 →
        (writeBytes initState.payload 0 (fakeBody p1 p25 p10)).getD j 0 =
          (fakeBody p1 p25 p10).getD j 0 := by
      intro j hj
      rw [writeBytes_getD,
        if_pos ⟨Nat.zero_le j, by rw [hbl]; omega, hj,
          by simpa [PAYLOAD_SIZE] using hj⟩]
      simp
    show decodePayload _ = _
    rw [decodePayload]
    simp only [DATA.mk.injEq]
    rw [hget 0 (by norm_num), hget 1 (by norm_num), hget 2 (by norm_num),
      hget 3 (by norm_num), hget 4 (by norm_num), hget 5 (by norm_num),
      hget 6 (by norm_num), hget 7 (by norm_num), hget 8 (by norm_num),
      hget 9 (by norm_num), hget 10 (by norm_num), hget 11 (by norm_num),
      hget 12 (by norm_num), hget 13 (by norm_num), hget 14 (by norm_num),
      hget 15 (by norm_num), hget 16 (by norm_num), hget 17 (by norm_num),
      hget 18 (by norm_num), hget 19 (by norm_num), hget 20 (by norm_num),
      hget 21 (by norm_num), hget 22 (by norm_num), hget 23 (by norm_num)]
    refine ⟨rfl, rfl, rfl, ?_, ?_, ?_, rfl, rfl, rfl, rfl, rfl, rfl⟩
    · exact makeWord_split p1 (by omega)
    · exact makeWord_split p25 (by omega)
    · exact makeWord_split p10 (by omega)


set_option maxRecDepth 100000 in
theorem xor_bit_facts : ∀ b < 256, ∀ k < 8,
    ((b ^^^ (1 <<< k)) = b + (1 <<< k) ∨ (b ^^^ (1 <<< k)) + (1 <<< k) = b)
      ∧ (b ^^^ (1 <<< k)) < 256 := by decide

theorem shift_bit_facts : ∀ k < 8, 0 < 1 <<< k ∧ 1 <<< k ≤ 128 := by decide

theorem getD_lt_of_forall (l : List Nat) (j : Nat) (hj : j < l.length)
    (hb : ∀ b ∈ l, b < 256) : l.getD j 0 < 256 := by
  rw [List.getD_eq_getElem?_getD, List.getElem?_eq_getElem hj]
  exact hb _ (List.getElem_mem hj)

/-- C4: flipping any single bit of any payload byte of a well-formed frame
(valid preamble, accepted length 20 or 28, trailing checksum equal to the
16-bit sum of all preceding bytes) while keeping the transmitted checksum
bytes unchanged makes the decoder emit no `STATUS_OK` at any point while
consuming the modified frame. -/
theorem C4_single_bitflip_no_complete (fl : Nat) (body : List Nat) (ch cl j k : Nat)
    (hfl : fl = 20 ∨ fl = 28) (hlen : body.length + 2 = fl)
    (hb : ∀ b ∈ body, b < 256) (hch : ch < 256) (hcl : cl < 256)
    (hmatch : ch * 256 + cl = (0x8F + fl + body.sum) % 65536)
    (hj : j < body.length) (hk : k < 8) :
    okCount initState
      ([0x42, 0x4D, 0, fl] ++ body.set j (body.getD j 0 ^^^ (1 <<< k)) ++ [ch, cl]) = 0 := by
  have hblt : body.getD j 0 < 256 := getD_lt_of_forall body j hj hb
  have hxf := xor_bit_facts (body.getD j 0) hblt k hk
  have hsf := shift_bit_facts k hk
  have hlen' : (body.set j (body.getD j 0 ^^^ (1 <<< k))).length + 2 = fl := by
    rw [List.length_set]; exact hlen
  have hb' : ∀ b ∈ body.set j (body.getD j 0 ^^^ (1 <<< k)), b < 256 := by
    intro x hx
    rcases List.mem_or_eq_of_mem_set hx with h | h
    · exact hb x h
    · rw [h]; exact hxf.2
  have hsum := sum_set_add body j (body.getD j 0 ^^^ (1 <<< k)) hj
  have hcond : ¬((0x8F + fl + (body.set j (body.getD j 0 ^^^ (1 <<< k))).sum) % 65536
      = ch * 256 + cl) := by
    rw [hmatch]
    rcases hxf.1 with h | h <;> omega
  have hfr := frame_run initState fl (body.set j (body.getD j 0 ^^^ (1 <<< k))) ch cl
    rfl rfl hfl hlen' hb' hch hcl
  rw [okCount, hfr.2, if_neg hcond]
  simp [List.count_append, List.count_replicate]


set_option maxRecDepth 100000 in
/-- C3 counterexample: the byte sequence `0x00` followed by a fake frame
does not start with `0x42 0x4D`, yet feeding it from position 0 produces a
Complete (`STATUS_OK`) event, refuting the claim that such sequences never
produce Complete. -/
theorem C3_counterexample_complete_after_junk :
    (0 :: create_fake_data 12 35 50).take 2 ≠ [0x42, 0x4D]
    ∧ okCount initState (0 :: create_fake_data 12 35 50) = 1 := by
  constructor
  · decide
  · decide

/-- C3 amended: for every byte sequence containing no `0x42` byte, the
decoder never emits Complete and stays in the position-0 initial state, and
any well-formed matching frame appended afterwards is decoded successfully
(exactly one `STATUS_OK`, on the frame's last byte). -/
theorem C3_amended_resync (g : List Nat) (hg : ∀ b ∈ g, b < 256 ∧ b ≠ 0x42)
    (fl : Nat) (body : List Nat) (ch cl : Nat)
    (hfl : fl = 20 ∨ fl = 28) (hlen : body.length + 2 = fl)
    (hb : ∀ b ∈ body, b < 256) (hch : ch < 256) (hcl : cl < 256)
    (hmatch : (0x8F + fl + body.sum) % 65536 = ch * 256 + cl) :
    okCount initState g = 0
    ∧ feedAll initState g = initState
    ∧ statusTrace initState (g ++ ([0x42, 0x4D, 0, fl] ++ body ++ [ch, cl])) =
        List.replicate (g.length + (fl + 3)) PmsStatus.waiting ++ [PmsStatus.ok] := by
  have hgar := run_garbage g initState rfl rfl hg
  refine ⟨?_, hgar.1, ?_⟩
  · rw [okCount, hgar.2]
    simp [List.count_replicate]
  · rw [statusTrace_append, hgar.1, hgar.2]
    have hfr := frame_run initState fl body ch cl rfl rfl hfl hlen hb hch hcl
    rw [hfr.2, if_pos hmatch, ← List.append_assoc, ← List.replicate_add]

theorem shiftLeft8_mod (x : Nat) (hx : x < 256) : (x <<< 8) % 65536 = x * 256 := by
  rw [Nat.shiftLeft_eq]
  have h : x * 2 ^ 8 = x * 256 := by norm_num
  rw [h, Nat.mod_eq_of_lt (by omega)]

/-- Helper for C5: a header declaring an unsupported length leaves the
decoder reset at position 0 with nothing but the running checksum and the
rejected length recorded. -/
theorem run_header_reject (s : DecoderState) (lh ll : Nat)
    (hidx : s.index = 0) (hst : s.status = PmsStatus.waiting)
    (hlh : lh < 256) (hll : ll < 256)
    (hbad : ¬(lh * 256 + ll = 20) ∧ ¬(lh * 256 + ll = 28)) :
    feedAll s [0x42, 0x4D, lh, ll] =
      { s with calculatedChecksum := 0x8F + lh, frameLen := lh * 256 + ll, index := 0,
               status := PmsStatus.waiting }
    ∧ statusTrace s [0x42, 0x4D, lh, ll] = List.replicate 4 PmsStatus.waiting := by
  obtain ⟨i, cc, flv, cs, p, d, st⟩ := s
  simp only at hidx hst
  subst hidx; subst hst
  have hm : lh % 256 = lh := Nat.mod_eq_of_lt hlh
  have hm2 : ll % 256 = ll := Nat.mod_eq_of_lt hll
  have hsh : (lh <<< 8) % 65536 = lh * 256 := shiftLeft8_mod lh hlh
  have hor : (lh * 256 ||| ll) % 65536 = lh * 256 + ll := by
    rw [mul256_lor lh ll hll, Nat.mod_eq_of_lt (by omega)]
  have hcc : (0x8F + lh) % 65536 = 0x8F + lh := Nat.mod_eq_of_lt (by omega)
  constructor
  · simp [feedAll, loopStep, hm, hm2, hsh, hor, hcc, hbad.1, hbad.2]
  · simp [statusTrace, loopStep, hm, hm2, hsh, hor, hcc, hbad.1, hbad.2]

/-- C5: when the two length bytes declare any value other than 20 or 28,
the decoder resets its position to 0 immediately at position 3: after the
four header bytes the index is 0, no payload byte was stored, the caller's
data is untouched, and no `STATUS_OK` (nor any other signal) was raised. -/
theorem C5_unsupported_length_reset (lh ll : Nat) (hlh : lh < 256) (hll : ll < 256)
    (hbad : ¬(lh * 256 + ll = 20) ∧ ¬(lh * 256 + ll = 28)) :
    (feedAll initState [0x42, 0x4D, lh, ll]).index = 0
    ∧ (feedAll initState [0x42, 0x4D, lh, ll]).payload = initState.payload
    ∧ (feedAll initState [0x42, 0x4D, lh, ll]).data = initState.data
    ∧ okCount initState [0x42, 0x4D, lh, ll] = 0 := by
  have h := run_header_reject initState lh ll rfl rfl hlh hll hbad
  refine ⟨by rw [h.1], by rw [h.1], by rw [h.1], ?_⟩
  rw [okCount, h.2]
  simp [List.count_replicate]


set_option maxRecDepth 100000 in
/-- C2 counterexample: feed a valid 28-length frame whose 2.5 µm count word
is 7, then a valid 20-length frame whose data bytes are all zero.  Both
frames complete, and the reading emitted for the 20-length frame reports
`PM_TOTALPARTICLES_2_5 = 7` — a value that appears nowhere in that frame —
refuting the claim that a length-20 frame's count fields come only from
that frame. -/
theorem C2_counterexample_stale_counts :
    okCount initState
      (([0x42, 0x4D, 0, 28] ++ (List.replicate 19 0 ++ [7] ++ List.replicate 6 0)
          ++ [0, 178]) ++
        ([0x42, 0x4D, 0, 20] ++ List.replicate 18 0 ++ [0, 163])) = 2
    ∧ (feedAll initState
        (([0x42, 0x4D, 0, 28] ++ (List.replicate 19 0 ++ [7] ++ List.replicate 6 0)
            ++ [0, 178]) ++
          ([0x42, 0x4D, 0, 20] ++ List.replicate 18 0 ++ [0, 163]))).data.PM_TOTALPARTICLES_2_5
        = 7
    ∧ (∀ b ∈ ([0x42, 0x4D, 0, 20] ++ List.replicate 18 0 ++ [0, 163] : List Nat), b ≠ 7) := by
  refine ⟨by decide, by decide, by decide⟩

/-- C2 amended: on a completing 20-length frame the decoder decodes the
first 6 words as SP, the next 6 as AE, and unconditionally decodes all six
count bins from the payload buffer: bins 0.3/0.5/1.0 come from the frame's
last three words, while bins 2.5/5.0/10.0 are read from payload bytes
18..23, which the 20-length frame never wrote — they keep whatever a
previous frame (or initialization) left there. -/
theorem C2_amended_length20_decode (s : DecoderState) (body : List Nat) (ch cl : Nat)
    (hidx : s.index = 0) (hst : s.status = PmsStatus.waiting)
    (hplen : s.payload.length = 24)
    (hlen : body.length = 18) (hb : ∀ b ∈ body, b < 256)
    (hch : ch < 256) (hcl : cl < 256)
    (hmatch : (0x8F + 20 + body.sum) % 65536 = ch * 256 + cl) :
    (feedAll s ([0x42, 0x4D, 0, 20] ++ body ++ [ch, cl])).status = PmsStatus.ok
    ∧ (feedAll s ([0x42, 0x4D, 0, 20] ++ body ++ [ch, cl])).data =
      { PM_SP_UG_1_0 := makeWord (body.getD 0 0) (body.getD 1 0),
        PM_SP_UG_2_5 := makeWord (body.getD 2 0) (body.getD 3 0),
        PM_SP_UG_10_0 := makeWord (body.getD 4 0) (body.getD 5 0),
        PM_AE_UG_1_0 := makeWord (body.getD 6 0) (body.getD 7 0),
        PM_AE_UG_2_5 := makeWord (body.getD 8 0) (body.getD 9 0),
        PM_AE_UG_10_0 := makeWord (body.getD 10 0) (body.getD 11 0),
        PM_TOTALPARTICLES_0_3 := makeWord (body.getD 12 0) (body.getD 13 0),
        PM_TOTALPARTICLES_0_5 := makeWord (body.getD 14 0) (body.getD 15 0),
        PM_TOTALPARTICLES_1_0 := makeWord (body.getD 16 0) (body.getD 17 0),
        PM_TOTALPARTICLES_2_5 := makeWord (s.payload.getD 18 0) (s.payload.getD 19 0),
        PM_TOTALPARTICLES_5_0 := makeWord (s.payload.getD 20 0) (s.payload.getD 21 0),
        PM_TOTALPARTICLES_10_0 := makeWord (s.payload.getD 22 0) (s.payload.getD 23 0) } := by
  have hfr := frame_run s 20 body ch cl hidx hst (Or.inl rfl) (by rw [hlen]) hb hch hcl
  have hin : ∀ j, j < 18 →
      (writeBytes s.payload 0 body).getD j 0 = body.getD j 0 := by
    intro j hj
    rw [writeBytes_getD, if_pos ⟨Nat.zero_le j, by omega, by
      show j < PAYLOAD_SIZE; show j < 24; omega, by omega⟩]
    simp
  have hout : ∀ j, 18 ≤ j →
      (writeBytes s.payload 0 body).getD j 0 = s.payload.getD j 0 := by
    intro j hj
    rw [writeBytes_getD, if_neg (by rw [hlen]; intro hcon; omega)]
  constructor
  · rw [hfr.1]
    simp only [if_pos hmatch]
  · rw [hfr.1]
    simp only [if_pos hmatch]
    show decodePayload _ = _
    rw [decodePayload]
    simp only [DATA.mk.injEq]
    rw [hin 0 (by norm_num), hin 1 (by norm_num), hin 2 (by norm_num),
      hin 3 (by norm_num), hin 4 (by norm_num), hin 5 (by norm_num),
      hin 6 (by norm_num), hin 7 (by norm_num), hin 8 (by norm_num),
      hin 9 (by norm_num), hin 10 (by norm_num), hin 11 (by norm_num),
      hin 12 (by norm_num), hin 13 (by norm_num), hin 14 (by norm_num),
      hin 15 (by norm_num), hin 16 (by norm_num), hin 17 (by norm_num),
      hout 18 (by norm_num), hout 19 (by norm_num), hout 20 (by norm_num),
      hout 21 (by norm_num), hout 22 (by norm_num), hout 23 (by norm_num)]
    exact ⟨rfl, rfl, rfl, rfl, rfl, rfl, rfl, rfl, rfl, rfl, rfl, rfl⟩


theorem loopStep_status_ok_iff (s : DecoderState) (ch : Nat) :
    (loopStep s ch).status = PmsStatus.ok ↔
      (4 ≤ s.index ∧ s.index = s.frameLen + 2 + 1
        ∧ s.calculatedChecksum = (s.checksum ||| ch % 256) % 65536) := by
  obtain ⟨i, cc, flv, cs, p, d, st⟩ := s
  simp only [loopStep]
  by_cases h0 : i = 0
  · subst h0
    rw [if_pos rfl]
    constructor
    · intro h
      split at h <;> simp at h
    · intro h
      exact absurd h.1 (by omega)
  by_cases h1 : i = 1
  · subst h1
    rw [if_neg h0, if_pos rfl]
    constructor
    · intro h
      split at h <;> simp at h
    · intro h
      exact absurd h.1 (by omega)
  by_cases h2 : i = 2
  · subst h2
    rw [if_neg h0, if_neg h1, if_pos rfl]
    constructor
    · intro h
      simp at h
    · intro h
      exact absurd h.1 (by omega)
  by_cases h3 : i = 3
  · subst h3
    rw [if_neg h0, if_neg h1, if_neg h2, if_pos rfl]
    constructor
    · intro h
      split at h <;> simp at h
    · intro h
      exact absurd h.1 (by omega)
  rw [if_neg h0, if_neg h1, if_neg h2, if_neg h3]
  by_cases hA : i = flv + 2
  · rw [if_pos hA]
    constructor
    · intro h
      simp at h
    · intro h
      exact absurd (h.1.trans_eq h.2.1.symm.symm) (by omega)
  by_cases hB : i = flv + 2 + 1
  · rw [if_neg hA, if_pos hB]
    split
    · exact iff_of_true rfl ⟨by omega, hB, by assumption⟩
    · exact iff_of_false (by simp) (fun h => absurd h.2.2 (by assumption))
  · rw [if_neg hA, if_neg hB]
    constructor
    · intro h
      split at h <;> simp at h
    · intro h
      exact absurd h.2.1 hB

theorem loopStep_status_irrel (s : DecoderState) (x : PmsStatus) (ch : Nat) :
    loopStep { s with status := x } ch = loopStep s ch := by
  obtain ⟨i, cc, flv, cs, p, d, st⟩ := s
  rfl

theorem loopOpt_status_irrel (s : DecoderState) (x : PmsStatus) (inb : Option Nat) :
    loopOpt { s with status := x } inb = loopOpt s inb := by
  cases inb with
  | none => rfl
  | some ch => exact loopStep_status_irrel s x ch

theorem readUntilRun_status_irrel (s : DecoderState) (x : PmsStatus) :
    ∀ ins : List (Option Nat),
      (readUntilRun { s with status := x } ins).1 = (readUntilRun s ins).1 := by
  intro ins
  cases ins with
  | nil =>
    show ((loopOpt { s with status := x } none).status == PmsStatus.ok, _).1 = _
    rw [loopOpt_status_irrel]
    rfl
  | cons i rest =>
    rw [readUntilRun, readUntilRun, loopOpt_status_irrel]

/-- C10: `PMS::loop` resets the status to Waiting at the start of every
invocation and consumes at most one byte, so `PMS::read` returns true iff
the single byte consumed in that call is the final checksum byte of a frame
(index equals frameLen+3, at least 4) and the accumulated checksum equals
the transmitted one; with no byte available it returns false, and neither
`read` nor `readUntil` is affected by the status a previous call left
behind. -/
theorem C10_read_ok_iff_final_checksum_byte (s : DecoderState) (inb : Option Nat) :
    ((pmsRead s inb).1 = true ↔
      ∃ ch, inb = some ch ∧ 4 ≤ s.index ∧ s.index = s.frameLen + 2 + 1
        ∧ s.calculatedChecksum = (s.checksum ||| ch % 256) % 65536)
    ∧ (pmsRead s none).1 = false
    ∧ (∀ x : PmsStatus, (pmsRead { s with status := x } inb).1 = (pmsRead s inb).1)
    ∧ (∀ x : PmsStatus, ∀ ins : List (Option Nat),
        (readUntilRun { s with status := x } ins).1 = (readUntilRun s ins).1) := by
  refine ⟨?_, rfl, fun x => rfl, fun x ins => readUntilRun_status_irrel s x ins⟩
  cases inb with
  | none => simp [pmsRead, loopOpt]
  | some ch =>
    simp only [pmsRead, loopOpt, decide_eq_true_eq]
    rw [loopStep_status_ok_iff]
    constructor
    · intro h
      exact ⟨ch, rfl, h.1, h.2.1, h.2.2⟩
    · rintro ⟨ch2, hch2, h⟩
      cases hch2
      exact h



/-- C6: in the Ready-state success branch, when all six decoded count
fields are zero the snapshot keeps its six PPD values and the
`g_pms_ppd_readings_taken` flag unchanged while SP/AE values are still
updated and `g_pms_ae_readings_taken` is set; when at least one count field
is non-zero, all six PPD values are adopted together and the flag is set. -/
theorem C6_count_zero_suppression (g : Snapshot) (d : DATA) :
    ((d.PM_TOTALPARTICLES_0_3 = 0 ∧ d.PM_TOTALPARTICLES_0_5 = 0
        ∧ d.PM_TOTALPARTICLES_1_0 = 0 ∧ d.PM_TOTALPARTICLES_2_5 = 0
        ∧ d.PM_TOTALPARTICLES_5_0 = 0 ∧ d.PM_TOTALPARTICLES_10_0 = 0) →
      updateSnapshot g d =
        { g with
          pm1p0_sp := d.PM_SP_UG_1_0, pm2p5_sp := d.PM_SP_UG_2_5,
          pm10p0_sp := d.PM_SP_UG_10_0,
          pm1p0_ae := d.PM_AE_UG_1_0, pm2p5_ae := d.PM_AE_UG_2_5,
          pm10p0_ae := d.PM_AE_UG_10_0,
          aeReadingsTaken := true })
    ∧ (¬(d.PM_TOTALPARTICLES_0_3 = 0 ∧ d.PM_TOTALPARTICLES_0_5 = 0
        ∧ d.PM_TOTALPARTICLES_1_0 = 0 ∧ d.PM_TOTALPARTICLES_2_5 = 0
        ∧ d.PM_TOTALPARTICLES_5_0 = 0 ∧ d.PM_TOTALPARTICLES_10_0 = 0) →
      updateSnapshot g d =
        { pm1p0_sp := d.PM_SP_UG_1_0, pm2p5_sp := d.PM_SP_UG_2_5,
          pm10p0_sp := d.PM_SP_UG_10_0,
          pm1p0_ae := d.PM_AE_UG_1_0, pm2p5_ae := d.PM_AE_UG_2_5,
          pm10p0_ae := d.PM_AE_UG_10_0,
          pm0p3_ppd := d.PM_TOTALPARTICLES_0_3, pm0p5_ppd := d.PM_TOTALPARTICLES_0_5,
          pm1p0_ppd := d.PM_TOTALPARTICLES_1_0, pm2p5_ppd := d.PM_TOTALPARTICLES_2_5,
          pm5p0_ppd := d.PM_TOTALPARTICLES_5_0, pm10p0_ppd := d.PM_TOTALPARTICLES_10_0,
          aeReadingsTaken := true, ppdReadingsTaken := true }) := by
  constructor
  · intro hz
    rw [updateSnapshot]
    simp only
    rw [if_neg (by omega)]
  · intro hnz
    rw [updateSnapshot]
    simp only
    rw [if_pos (by omega)]

/-- C8: in the Ready state the tick consults exactly one bounded blocking
decode attempt; on success it transitions Ready → Asleep with
`stateStart := timeNow`, commands the sensor to sleep and publishes the
updated snapshot with the wall-clock timestamp exactly once; on timeout the
controller state (including `stateStart` and the snapshot) is exactly
unchanged and no command is emitted — no backoff, no retry counter. -/
theorem C8_ready_decode_sleep_publish (cfg : PmsConfig) (s : CtrlState) (t w : Nat) (d : DATA)
    (hready : s.pmsState = PmsState.ready) :
    tick cfg s t (some d) w =
      ({ pmsState := PmsState.asleep, stateStart := t,
         snapshot := updateSnapshot s.snapshot d },
       [Cmd.sleepSensor, Cmd.publish (updateSnapshot s.snapshot d) w])
    ∧ tick cfg s t none w = (s, []) := by
  obtain ⟨ps, st0, g⟩ := s
  simp only at hready
  subst hready
  constructor
  · rw [tick]
    simp
  · rw [tick]
    simp


theorem usub32_small (a t : Nat) (h1 : a ≤ t) (h2 : t < 4294967296) :
    usub32 t a = t - a := by
  rw [usub32]
  omega

theorem tick_asleep_stay (s : CtrlState) (t : Nat)
    (hs : s.pmsState = PmsState.asleep) (h : usub32 t s.stateStart < 90000) :
    tick cfg120 s t none 0 = (s, []) := by
  obtain ⟨ps, st0, g⟩ := s
  simp only at hs h
  subst hs
  rw [tick]
  have hth : usub32 (cfg120.reportPeriod * 1000 % 4294967296)
      (cfg120.warmupPeriod * 1000 % 4294967296) = 90000 := by decide
  simp [hth, Nat.not_le.mpr h]

theorem tick_asleep_go (s : CtrlState) (t : Nat)
    (hs : s.pmsState = PmsState.asleep) (h : 90000 ≤ usub32 t s.stateStart) :
    tick cfg120 s t none 0 =
      ({ s with pmsState := PmsState.wakingUp, stateStart := t }, [Cmd.wake]) := by
  obtain ⟨ps, st0, g⟩ := s
  simp only at hs h
  subst hs
  rw [tick]
  have hth : usub32 120000 30000 = 90000 := by decide
  have hself : usub32 t t = 0 := by rw [usub32]; omega
  simp [cfg120, hth, h, hself]

theorem tick_waking_stay (s : CtrlState) (t : Nat)
    (hs : s.pmsState = PmsState.wakingUp) (h : usub32 t s.stateStart < 30000) :
    tick cfg120 s t none 0 = (s, []) := by
  obtain ⟨ps, st0, g⟩ := s
  simp only at hs h
  subst hs
  rw [tick]
  simp [cfg120, Nat.not_le.mpr h]

theorem tick_waking_go (s : CtrlState) (t : Nat)
    (hs : s.pmsState = PmsState.wakingUp) (h : 30000 ≤ usub32 t s.stateStart) :
    tick cfg120 s t none 0 =
      ({ s with pmsState := PmsState.ready, stateStart := t }, []) := by
  obtain ⟨ps, st0, g⟩ := s
  simp only at hs h
  subst hs
  rw [tick]
  simp [cfg120, h]

theorem runTicks_stay (cfg : PmsConfig) (s : CtrlState) :
    ∀ l : List Nat, (∀ t ∈ l, tick cfg s t none 0 = (s, [])) →
      runTicks cfg s l = (s, []) := by
  intro l
  induction l with
  | nil => intro _; rfl
  | cons t rest ih =>
    intro h
    rw [runTicks, h t (by simp)]
    rw [ih (fun x hx => h x (by simp [hx]))]
    simp

theorem runTicks_append (cfg : PmsConfig) (s : CtrlState) (l1 l2 : List Nat) :
    runTicks cfg s (l1 ++ l2) =
      ((runTicks cfg (runTicks cfg s l1).1 l2).1,
       (runTicks cfg s l1).2 ++ (runTicks cfg (runTicks cfg s l1).1 l2).2) := by
  induction l1 generalizing s with
  | nil => simp [runTicks]
  | cons t rest ih =>
    rw [List.cons_append, runTicks, runTicks, ih]
    simp [runTicks]


theorem runTicks_singleton (cfg : PmsConfig) (s : CtrlState) (t : Nat) :
    runTicks cfg s [t] =
      ((tick cfg s t none 0).1, (tick cfg s t none 0).2.map (fun c => (t, c))) := by
  rw [runTicks]
  simp [runTicks]

theorem range_one (t : Nat) : List.range' t 1 = [t] := rfl

/-- C7: the controller starts in WakingUp; from Asleep it commands wake
and transitions to WakingUp exactly when the elapsed time since entering
Asleep reaches reportPeriod − warmupPeriod (90000 ms for the 120 s/30 s
configuration), and from WakingUp it transitions to Ready with no command
exactly when the elapsed time reaches warmupPeriod (30000 ms); concretely,
ticking at every millisecond 0..120000 from Asleep entered at t = 0 issues
the wake command exactly at t = 90000 ms (90 s) and ends in Ready entered
at t = 120000 ms (120 s). -/
theorem C7_duty_cycle_timing (g : Snapshot) :
    initCtrl.pmsState = PmsState.wakingUp
    ∧ (∀ st t : Nat, st ≤ t → t < 4294967296 →
        ((tick cfg120 ⟨PmsState.asleep, st, g⟩ t none 0 =
            (⟨PmsState.wakingUp, t, g⟩, [Cmd.wake])) ↔ st + 90000 ≤ t))
    ∧ (∀ st t : Nat, st ≤ t → t < 4294967296 →
        ((tick cfg120 ⟨PmsState.wakingUp, st, g⟩ t none 0 =
            (⟨PmsState.ready, t, g⟩, [])) ↔ st + 30000 ≤ t))
    ∧ runTicks cfg120 ⟨PmsState.asleep, 0, g⟩ (List.range 120001) =
        (⟨PmsState.ready, 120000, g⟩, [(90000, Cmd.wake)]) := by
  refine ⟨rfl, ?_, ?_, ?_⟩
  · intro st t h1 h2
    have he : usub32 t st = t - st := usub32_small st t h1 h2
    constructor
    · intro heq
      by_contra hlt
      rw [tick_asleep_stay ⟨PmsState.asleep, st, g⟩ t rfl (by rw [he]; omega)] at heq
      have := congrArg Prod.snd heq
      simp at this
    · intro hge
      exact tick_asleep_go ⟨PmsState.asleep, st, g⟩ t rfl (by rw [he]; omega)
  · intro st t h1 h2
    have he : usub32 t st = t - st := usub32_small st t h1 h2
    constructor
    · intro heq
      by_contra hlt
      rw [tick_waking_stay ⟨PmsState.wakingUp, st, g⟩ t rfl (by rw [he]; omega)] at heq
      have := congrArg (fun r => (Prod.fst r).pmsState) heq
      simp at this
    · intro hge
      exact tick_waking_go ⟨PmsState.wakingUp, st, g⟩ t rfl (by rw [he]; omega)
  · have hr1 : List.range' 0 90000 ++ List.range' 90000 1 = List.range' 0 90001 := by
      have h := List.range'_append 0 90000 1 1
      norm_num at h
      exact h
    have hr2 : List.range' 90001 29999 ++ List.range' 120000 1 = List.range' 90001 30000 := by
      have h := List.range'_append 90001 29999 1 1
      norm_num at h
      exact h
    have hr3 : List.range' 0 90001 ++ List.range' 90001 30000 = List.range' 0 120001 := by
      have h := List.range'_append 0 90001 30000 1
      norm_num at h
      exact h
    have hsplit : List.range 120001 =
        (List.range' 0 90000 ++ List.range' 90000 1) ++
          (List.range' 90001 29999 ++ List.range' 120000 1) := by
      rw [hr1, hr2, hr3, List.range_eq_range']
    rw [hsplit, runTicks_append]
    have hp1 : runTicks cfg120 ⟨PmsState.asleep, 0, g⟩
        (List.range' 0 90000 ++ List.range' 90000 1) =
        (⟨PmsState.wakingUp, 90000, g⟩, [(90000, Cmd.wake)]) := by
      rw [runTicks_append]
      have hstay : runTicks cfg120 ⟨PmsState.asleep, 0, g⟩ (List.range' 0 90000) =
          (⟨PmsState.asleep, 0, g⟩, []) := by
        apply runTicks_stay
        intro t ht
        rw [List.mem_range'_1] at ht
        exact tick_asleep_stay _ t rfl
          (by rw [usub32_small 0 t (Nat.zero_le t) (by omega)]; omega)
      rw [hstay]
      have hgo : tick cfg120 ⟨PmsState.asleep, 0, g⟩ 90000 none 0 =
          (⟨PmsState.wakingUp, 90000, g⟩, [Cmd.wake]) :=
        tick_asleep_go _ 90000 rfl
          (by rw [usub32_small 0 90000 (Nat.zero_le _) (by omega)])
      rw [range_one, runTicks_singleton, hgo]
      simp
    rw [hp1]
    have hstay2 : runTicks cfg120 ⟨PmsState.wakingUp, 90000, g⟩
        (List.range' 90001 29999) = (⟨PmsState.wakingUp, 90000, g⟩, []) := by
      apply runTicks_stay
      intro t ht
      rw [List.mem_range'_1] at ht
      exact tick_waking_stay _ t rfl
        (by rw [usub32_small 90000 t (by omega) (by omega)]; omega)
    have hgo2 : tick cfg120 ⟨PmsState.wakingUp, 90000, g⟩ 120000 none 0 =
        (⟨PmsState.ready, 120000, g⟩, []) :=
      tick_waking_go _ 120000 rfl
        (by rw [usub32_small 90000 120000 (by omega) (by omega)])
    rw [runTicks_append, hstay2, range_one, runTicks_singleton, hgo2]
    simp


/-- C9 counterexample: the sleep command frame has 7 bytes, which cannot
be split as two-byte preamble + one command byte + two-byte parameter +
one-byte checksum (that layout has 6 bytes), and its final byte is not an
8-bit checksum of the preceding six bytes. -/
theorem C9_counterexample_one_byte_checksum :
    sleepCommand.length = 7
    ∧ sleepCommand.getD 6 0 ≠ (sleepCommand.take 6).sum % 256
    ∧ ¬∃ c p1 p2 k : Nat, sleepCommand = [0x42, 0x4D, c, p1, p2, k] := by
  refine ⟨rfl, by decide, ?_⟩
  rintro ⟨c, p1, p2, k, h⟩
  have hlen := congrArg List.length h
  simp [sleepCommand] at hlen

/-- C9 amended: each of the four sensor command frames (sleep, wake,
active-mode, passive-mode) is a fixed precomputed constant of exactly
7 bytes: two-byte preamble `0x42 0x4D`, one command byte, a two-byte
parameter, and a TWO-byte big-endian checksum equal to the 16-bit sum of
the first five bytes. -/
theorem C9_amended_command_frames :
    (sleepCommand.length = 7 ∧ sleepCommand.take 2 = [0x42, 0x4D]
      ∧ makeWord (sleepCommand.getD 5 0) (sleepCommand.getD 6 0) = (sleepCommand.take 5).sum)
    ∧ (wakeUpCommand.length = 7 ∧ wakeUpCommand.take 2 = [0x42, 0x4D]
      ∧ makeWord (wakeUpCommand.getD 5 0) (wakeUpCommand.getD 6 0) = (wakeUpCommand.take 5).sum)
    ∧ (activeModeCommand.length = 7 ∧ activeModeCommand.take 2 = [0x42, 0x4D]
      ∧ makeWord (activeModeCommand.getD 5 0) (activeModeCommand.getD 6 0)
          = (activeModeCommand.take 5).sum)
    ∧ (passiveModeCommand.length = 7 ∧ passiveModeCommand.take 2 = [0x42, 0x4D]
      ∧ makeWord (passiveModeCommand.getD 5 0) (passiveModeCommand.getD 6 0)
          = (passiveModeCommand.take 5).sum) := by decide


set_option maxRecDepth 100000 in
/-- Witness for C1 at the concrete values 12, 35, 50. -/
theorem C1_fake_frame_roundtrip_witness :
    statusTrace initState (create_fake_data 12 35 50) =
      List.replicate 31 PmsStatus.waiting ++ [PmsStatus.ok]
    ∧ (feedAll initState (create_fake_data 12 35 50)).data =
        { PM_SP_UG_1_0 := 0, PM_SP_UG_2_5 := 0, PM_SP_UG_10_0 := 0,
          PM_AE_UG_1_0 := 12, PM_AE_UG_2_5 := 35, PM_AE_UG_10_0 := 50,
          PM_TOTALPARTICLES_0_3 := 0, PM_TOTALPARTICLES_0_5 := 0,
          PM_TOTALPARTICLES_1_0 := 0, PM_TOTALPARTICLES_2_5 := 0,
          PM_TOTALPARTICLES_5_0 := 0, PM_TOTALPARTICLES_10_0 := 0 } :=
  C1_fake_frame_roundtrip 12 35 50 (by norm_num) (by norm_num) (by norm_num)

set_option maxRecDepth 100000 in
/-- Witness for the amended C2 at a concrete all-zero 20-length frame fed
from the initial state. -/
theorem C2_amended_length20_decode_witness :
    (feedAll initState ([0x42, 0x4D, 0, 20] ++ List.replicate 18 0 ++ [0, 163])).status
      = PmsStatus.ok
    ∧ (feedAll initState ([0x42, 0x4D, 0, 20] ++ List.replicate 18 0 ++ [0, 163])).data =
      { PM_SP_UG_1_0 := makeWord ((List.replicate 18 0).getD 0 0) ((List.replicate 18 0).getD 1 0),
        PM_SP_UG_2_5 := makeWord ((List.replicate 18 0).getD 2 0) ((List.replicate 18 0).getD 3 0),
        PM_SP_UG_10_0 := makeWord ((List.replicate 18 0).getD 4 0) ((List.replicate 18 0).getD 5 0),
        PM_AE_UG_1_0 := makeWord ((List.replicate 18 0).getD 6 0) ((List.replicate 18 0).getD 7 0),
        PM_AE_UG_2_5 := makeWord ((List.replicate 18 0).getD 8 0) ((List.replicate 18 0).getD 9 0),
        PM_AE_UG_10_0 := makeWord ((List.replicate 18 0).getD 10 0) ((List.replicate 18 0).getD 11 0),
        PM_TOTALPARTICLES_0_3 := makeWord ((List.replicate 18 0).getD 12 0) ((List.replicate 18 0).getD 13 0),
        PM_TOTALPARTICLES_0_5 := makeWord ((List.replicate 18 0).getD 14 0) ((List.replicate 18 0).getD 15 0),
        PM_TOTALPARTICLES_1_0 := makeWord ((List.replicate 18 0).getD 16 0) ((List.replicate 18 0).getD 17 0),
        PM_TOTALPARTICLES_2_5 := makeWord (initState.payload.getD 18 0) (initState.payload.getD 19 0),
        PM_TOTALPARTICLES_5_0 := makeWord (initState.payload.getD 20 0) (initState.payload.getD 21 0),
        PM_TOTALPARTICLES_10_0 := makeWord (initState.payload.getD 22 0) (initState.payload.getD 23 0) } :=
  C2_amended_length20_decode initState (List.replicate 18 0) 0 163 rfl rfl rfl rfl
    (by decide) (by decide) (by decide) (by decide)

set_option maxRecDepth 100000 in
/-- Witness for the amended C3: junk byte `0x00`, then a valid all-zero
20-length frame. -/
theorem C3_amended_resync_witness :
    okCount initState [0] = 0
    ∧ feedAll initState [0] = initState
    ∧ statusTrace initState
        ([0] ++ ([0x42, 0x4D, 0, 20] ++ List.replicate 18 0 ++ [0, 163])) =
      List.replicate (([0] : List Nat).length + (20 + 3)) PmsStatus.waiting
        ++ [PmsStatus.ok] :=
  C3_amended_resync [0] (by decide) 20 (List.replicate 18 0) 0 163 (Or.inl rfl)
    (by decide) (by decide) (by decide) (by decide) (by decide)

set_option maxRecDepth 100000 in
/-- Witness for C4: flip bit 0 of the first payload byte of a valid
all-zero 20-length frame. -/
theorem C4_single_bitflip_no_complete_witness :
    okCount initState
      ([0x42, 0x4D, 0, 20] ++
        (List.replicate 18 0).set 0 ((List.replicate 18 0).getD 0 0 ^^^ (1 <<< 0))
        ++ [0, 163]) = 0 :=
  C4_single_bitflip_no_complete 20 (List.replicate 18 0) 0 163 0 0 (Or.inl rfl)
    (by decide) (by decide) (by decide) (by decide) (by decide) (by decide) (by decide)

/-- Witness for C5: declared length 19. -/
theorem C5_unsupported_length_reset_witness :
    (feedAll initState [0x42, 0x4D, 0, 19]).index = 0
    ∧ (feedAll initState [0x42, 0x4D, 0, 19]).payload = initState.payload
    ∧ (feedAll initState [0x42, 0x4D, 0, 19]).data = initState.data
    ∧ okCount initState [0x42, 0x4D, 0, 19] = 0 :=
  C5_unsupported_length_reset 0 19 (by norm_num) (by norm_num) (by norm_num)

/-- Witness for C6 at a concrete prior snapshot with an all-zero-count
decode and a non-zero-count decode. -/
theorem C6_count_zero_suppression_witness :
    updateSnapshot
        ⟨1, 2, 3, 4, 5, 6, 7, 8, 9, 10, 11, 12, true, true⟩
        ⟨100, 200, 300, 400, 500, 600, 0, 0, 0, 0, 0, 0⟩ =
      { (⟨1, 2, 3, 4, 5, 6, 7, 8, 9, 10, 11, 12, true, true⟩ : Snapshot) with
        pm1p0_sp := (⟨100, 200, 300, 400, 500, 600, 0, 0, 0, 0, 0, 0⟩ : DATA).PM_SP_UG_1_0,
        pm2p5_sp := (⟨100, 200, 300, 400, 500, 600, 0, 0, 0, 0, 0, 0⟩ : DATA).PM_SP_UG_2_5,
        pm10p0_sp := (⟨100, 200, 300, 400, 500, 600, 0, 0, 0, 0, 0, 0⟩ : DATA).PM_SP_UG_10_0,
        pm1p0_ae := (⟨100, 200, 300, 400, 500, 600, 0, 0, 0, 0, 0, 0⟩ : DATA).PM_AE_UG_1_0,
        pm2p5_ae := (⟨100, 200, 300, 400, 500, 600, 0, 0, 0, 0, 0, 0⟩ : DATA).PM_AE_UG_2_5,
        pm10p0_ae := (⟨100, 200, 300, 400, 500, 600, 0, 0, 0, 0, 0, 0⟩ : DATA).PM_AE_UG_10_0,
        aeReadingsTaken := true }
    ∧ updateSnapshot
        ⟨1, 2, 3, 4, 5, 6, 7, 8, 9, 10, 11, 12, true, true⟩
        ⟨100, 200, 300, 400, 500, 600, 5, 0, 0, 0, 0, 0⟩ =
      { pm1p0_sp := 100, pm2p5_sp := 200, pm10p0_sp := 300,
        pm1p0_ae := 400, pm2p5_ae := 500, pm10p0_ae := 600,
        pm0p3_ppd := 5, pm0p5_ppd := 0, pm1p0_ppd := 0,
        pm2p5_ppd := 0, pm5p0_ppd := 0, pm10p0_ppd := 0,
        aeReadingsTaken := true, ppdReadingsTaken := true } :=
  ⟨(C6_count_zero_suppression
      ⟨1, 2, 3, 4, 5, 6, 7, 8, 9, 10, 11, 12, true, true⟩
      ⟨100, 200, 300, 400, 500, 600, 0, 0, 0, 0, 0, 0⟩).1 (by decide),
   (C6_count_zero_suppression
      ⟨1, 2, 3, 4, 5, 6, 7, 8, 9, 10, 11, 12, true, true⟩
      ⟨100, 200, 300, 400, 500, 600, 5, 0, 0, 0, 0, 0⟩).2 (by decide)⟩

/-- Witness for C7: the wake command is issued by the tick at t = 90000 ms
from Asleep entered at t = 0. -/
theorem C7_duty_cycle_timing_witness :
    tick cfg120 ⟨PmsState.asleep, 0, initCtrl.snapshot⟩ 90000 none 0 =
      (⟨PmsState.wakingUp, 90000, initCtrl.snapshot⟩, [Cmd.wake]) :=
  ((C7_duty_cycle_timing initCtrl.snapshot).2.1 0 90000 (by omega)
    (by omega)).mpr (by omega)

/-- Witness for C8 at a concrete Ready state, decode result and times. -/
theorem C8_ready_decode_sleep_publish_witness :
    tick cfg120 ⟨PmsState.ready, 3, initCtrl.snapshot⟩ 5
        (some ⟨1, 2, 3, 4, 5, 6, 7, 8, 9, 10, 11, 12⟩) 7 =
      ({ pmsState := PmsState.asleep, stateStart := 5,
         snapshot := updateSnapshot initCtrl.snapshot ⟨1, 2, 3, 4, 5, 6, 7, 8, 9, 10, 11, 12⟩ },
       [Cmd.sleepSensor,
        Cmd.publish (updateSnapshot initCtrl.snapshot ⟨1, 2, 3, 4, 5, 6, 7, 8, 9, 10, 11, 12⟩) 7])
    ∧ tick cfg120 ⟨PmsState.ready, 3, initCtrl.snapshot⟩ 5 none 7 =
      (⟨PmsState.ready, 3, initCtrl.snapshot⟩, []) :=
  C8_ready_decode_sleep_publish cfg120 ⟨PmsState.ready, 3, initCtrl.snapshot⟩ 5 7
    ⟨1, 2, 3, 4, 5, 6, 7, 8, 9, 10, 11, 12⟩ rfl

end Linka
